import Mathlib

/-!
Verification of the lingua-nostra numeric / datetime extraction engine.

The development shallowly embeds the repository's code:

* `src/lingua_nostra/time.py` is embedded directly (timezone conversion
  helpers and the leap-year utilities).  Timezones are modelled as fixed
  offsets in minutes; a Python `datetime` becomes a wall-clock stamp plus
  an optional offset, and `astimezone` is the instant-preserving zone
  change of the Python standard library.
* `src/lingua_nostra/lang/common_data_en.py` (the English lexical tables)
  is embedded directly.
* The English parser module (`extract_number`, `extract_duration`,
  `extract_datetime`) is not part of the source tree; those operations are
  modelled from the specification, over the real lexical tables, and are
  marked as such in their doc comments.
-/

namespace LinguaNostra

/-! ## Embedding of `src/lingua_nostra/time.py`

A `tzinfo` object is modelled as a fixed UTC offset in minutes.  A Python
`datetime` is modelled by its naive wall-clock reading (in minutes, on an
unbounded axis) together with its optional `tzinfo`.  `astimezone`
preserves the denoted instant while changing the zone; `replace` swaps the
zone while keeping the wall-clock reading.  The mutable module global
`__default_tz` and the host zone `tzlocal()` are passed explicitly as the
`cfg` and `sys` arguments. -/

/-- A Python `datetime`: wall-clock stamp in minutes plus optional fixed
UTC offset (the `tzinfo`). `tz = none` is a naive datetime. -/
structure PyDateTime where
  wall : Int
  tz : Option Int
  deriving DecidableEq, Repr

/-- The absolute instant denoted by an aware datetime (naive datetimes are
read at offset 0 here; the theorems below only use it on aware values). -/
def instantOf (dt : PyDateTime) : Int := dt.wall - dt.tz.getD 0

/-- Python `dt.astimezone(tz)` on an aware datetime: same instant,
re-expressed at offset `tz`. -/
def astimezone (dt : PyDateTime) (tz : Int) : PyDateTime :=
  ⟨dt.wall - dt.tz.getD 0 + tz, some tz⟩

/-- Python `dt.replace(tzinfo=tz)`: keep the wall clock, attach a zone. -/
def replaceTz (dt : PyDateTime) (tz : Int) : PyDateTime :=
  ⟨dt.wall, some tz⟩

/-- `default_timezone()` from `time.py`: `__default_tz or tzlocal()`.
`cfg` is the module global set by `set_default_tz`, `sys` is `tzlocal()`. -/
def default_timezone (cfg : Option Int) (sys : Int) : Int :=
  cfg.getD sys

/-- `to_utc(dt)` from `time.py`: aware datetimes are converted with
`astimezone`, naive ones first get the default timezone attached. -/
def to_utc (cfg : Option Int) (sys : Int) (dt : PyDateTime) : PyDateTime :=
  match dt.tz with
  | some _ => astimezone dt 0
  | none => astimezone (replaceTz dt (default_timezone cfg sys)) 0

/-- `to_local(dt)` from `time.py`: aware datetimes are converted to the
default timezone; naive ones just get the default timezone attached. -/
def to_local (cfg : Option Int) (sys : Int) (dt : PyDateTime) : PyDateTime :=
  match dt.tz with
  | some _ => astimezone dt (default_timezone cfg sys)
  | none => replaceTz dt (default_timezone cfg sys)

/-- `to_system(dt)` from `time.py`: aware datetimes are converted to the
system zone; naive ones first get the default timezone attached. -/
def to_system (cfg : Option Int) (sys : Int) (dt : PyDateTime) : PyDateTime :=
  match dt.tz with
  | some _ => astimezone dt sys
  | none => astimezone (replaceTz dt (default_timezone cfg sys)) sys

/-- `is_leap_year(year)` from `time.py`. -/
def is_leap_year (year : Int) : Bool :=
  (year % 400 == 0) || ((year % 4 == 0) && (year % 100 != 0))

/-- `get_next_leap_year(year)` from `time.py`: search forward one year at
a time for the next leap year. -/
def get_next_leap_year (year : Int) : Int :=
  let next_year := year + 1
  if is_leap_year next_year then next_year
  else get_next_leap_year next_year
termination_by (400 - year % 400).toNat
decreasing_by
  have h400 : (year + 1) % 400 ≠ 0 := by
    intro h0
    simp only [is_leap_year, Bool.or_eq_true, Bool.and_eq_true, beq_iff_eq,
      bne_iff_ne, ne_eq] at *
    omega
  omega

/-- Number of invocations of `get_next_leap_year` (initial call included)
performed when evaluating `get_next_leap_year year`. -/
def get_next_leap_year_steps (year : Int) : Nat :=
  let next_year := year + 1
  if is_leap_year next_year then 1
  else 1 + get_next_leap_year_steps next_year
termination_by (400 - year % 400).toNat
decreasing_by
  have h400 : (year + 1) % 400 ≠ 0 := by
    intro h0
    simp only [is_leap_year, Bool.or_eq_true, Bool.and_eq_true, beq_iff_eq,
      bne_iff_ne, ne_eq] at *
    omega
  omega

/-! ### Helper lemmas for `time.py` -/

lemma steps_of_leap (year : Int) (h : is_leap_year (year + 1) = true) :
    get_next_leap_year_steps year = 1 := by
  rw [get_next_leap_year_steps]
  simp [h]

lemma steps_of_not_leap (year : Int) (h : is_leap_year (year + 1) = false) :
    get_next_leap_year_steps year = 1 + get_next_leap_year_steps (year + 1) := by
  rw [get_next_leap_year_steps]
  simp [h]

lemma gnly_of_leap (year : Int) (h : is_leap_year (year + 1) = true) :
    get_next_leap_year year = year + 1 := by
  rw [get_next_leap_year]
  simp [h]

lemma gnly_of_not_leap (year : Int) (h : is_leap_year (year + 1) = false) :
    get_next_leap_year year = get_next_leap_year (year + 1) := by
  rw [get_next_leap_year]
  simp [h]

lemma is_leap_year_iff (year : Int) :
    is_leap_year year = true ↔
      year % 400 = 0 ∨ (year % 4 = 0 ∧ year % 100 ≠ 0) := by
  simp only [is_leap_year, Bool.or_eq_true, Bool.and_eq_true, beq_iff_eq,
    bne_iff_ne, ne_eq]

/-- Among the eight years following any year there is a leap year: the
window contains two multiples of 4, and two consecutive multiples of 4
cannot both be century non-leap years. -/
lemma leap_in_eight (year : Int) :
    ∃ k : Nat, 1 ≤ k ∧ k ≤ 8 ∧ is_leap_year (year + k) = true := by
  have h4 : 0 ≤ year % 4 ∧ year % 4 < 4 := ⟨Int.emod_nonneg year (by norm_num),
    Int.emod_lt_of_pos year (by norm_num)⟩
  set k1 : Nat := (4 - year % 4).toNat with hk1
  have hk1c : (k1 : Int) = 4 - year % 4 := by omega
  have hmod : (year + k1) % 4 = 0 := by omega
  by_cases h : is_leap_year (year + k1) = true
  · exact ⟨k1, by omega, by omega, h⟩
  · refine ⟨k1 + 4, by omega, by omega, ?_⟩
    rw [is_leap_year_iff] at h ⊢
    push_neg at h
    have h100 : (year + k1) % 100 = 0 := by
      rcases h with ⟨h400, h4'⟩
      by_contra hne
      exact hne (h4' hmod)
    right
    constructor
    · push_cast
      omega
    · push_cast
      omega

/-- If a leap year lies within `n` years ahead, the recursion of
`get_next_leap_year` stops within `n` invocations, and the result is the
start year advanced by exactly that number of steps. -/
lemma steps_bounded : ∀ (n : Nat) (year : Int),
    (∃ k : Nat, 1 ≤ k ∧ k ≤ n ∧ is_leap_year (year + k) = true) →
    get_next_leap_year_steps year ≤ n ∧
      get_next_leap_year year = year + get_next_leap_year_steps year := by
  intro n
  induction n with
  | zero => intro year ⟨k, hk1, hk0, _⟩; omega
  | succ n ih =>
    intro year ⟨k, hk1, hkn, hkleap⟩
    by_cases h : is_leap_year (year + 1) = true
    · rw [steps_of_leap year h, gnly_of_leap year h]
      exact ⟨by omega, by push_cast; ring⟩
    · have hne1 : k ≠ 1 := by
        intro h1
        rw [h1] at hkleap
        push_cast at hkleap
        exact h hkleap
      have hex : ∃ k : Nat, 1 ≤ k ∧ k ≤ n ∧
          is_leap_year ((year + 1) + k) = true := by
        refine ⟨k - 1, by omega, by omega, ?_⟩
        have : ((year + 1) + ((k - 1 : Nat) : Int)) = year + k := by
          omega
        rw [this]
        exact hkleap
      obtain ⟨hle, heq⟩ := ih (year + 1) hex
      rw [Bool.not_eq_true] at h
      rw [steps_of_not_leap year h, gnly_of_not_leap year h]
      exact ⟨by omega, by rw [heq]; push_cast; ring⟩

end LinguaNostra

namespace LinguaNostra

/-! ## Theorems for claims C8, C9, C10 -/

/-- C8: `to_utc`/`to_local`/`to_system` convert a zone-carrying datetime
directly to the target zone preserving the instant, and interpret a naive
datetime as already expressed in the default timezone (the configured zone
or, failing that, the system zone) before converting; a naive datetime is
never assumed to be UTC. -/
theorem tz_conversion_contract (cfg : Option Int) (sys : Int)
    (dt : PyDateTime) :
    (∀ o : Int, dt.tz = some o →
      to_utc cfg sys dt = astimezone dt 0 ∧
      instantOf (to_utc cfg sys dt) = instantOf dt ∧
      (to_utc cfg sys dt).tz = some 0 ∧
      to_local cfg sys dt = astimezone dt (default_timezone cfg sys) ∧
      instantOf (to_local cfg sys dt) = instantOf dt ∧
      (to_local cfg sys dt).tz = some (default_timezone cfg sys) ∧
      to_system cfg sys dt = astimezone dt sys ∧
      instantOf (to_system cfg sys dt) = instantOf dt ∧
      (to_system cfg sys dt).tz = some sys) ∧
    (dt.tz = none →
      to_utc cfg sys dt =
        to_utc cfg sys (replaceTz dt (default_timezone cfg sys)) ∧
      to_local cfg sys dt =
        to_local cfg sys (replaceTz dt (default_timezone cfg sys)) ∧
      to_system cfg sys dt =
        to_system cfg sys (replaceTz dt (default_timezone cfg sys)) ∧
      instantOf (to_utc cfg sys dt) =
        dt.wall - default_timezone cfg sys) := by
  constructor
  · intro o ho
    obtain ⟨w, tz⟩ := dt
    simp only [Option.mem_def] at ho
    subst ho
    simp [to_utc, to_local, to_system, astimezone, instantOf, replaceTz,
      default_timezone]
  · intro ho
    obtain ⟨w, tz⟩ := dt
    simp only at ho
    subst ho
    simp [to_utc, to_local, to_system, astimezone, instantOf, replaceTz,
      default_timezone]

/-- Witness for C8 at concrete inputs: an aware datetime (wall 1000,
offset 90) and a naive one (wall 500), with configured default offset 60
and system offset -30. -/
theorem tz_conversion_contract_witness :
    (to_utc (some 60) (-30) ⟨1000, some 90⟩ =
      astimezone ⟨1000, some 90⟩ 0) ∧
    (to_local (some 60) (-30) ⟨500, none⟩ =
      to_local (some 60) (-30)
        (replaceTz ⟨500, none⟩ (default_timezone (some 60) (-30)))) :=
  ⟨((tz_conversion_contract (some 60) (-30) ⟨1000, some 90⟩).1 90 rfl).1,
   ((tz_conversion_contract (some 60) (-30) ⟨500, none⟩).2 rfl).2.1⟩

/-- C9 counterexample: starting from year 2096 the recursion of
`get_next_leap_year` takes 8 invocations (2097 … 2104; the year 2100
is not a leap year), refuting the claimed bound of at most 4 steps. -/
theorem gnly_steps_2096_exceeds_four :
    get_next_leap_year_steps 2096 = 8 ∧
      ¬ (get_next_leap_year_steps 2096 ≤ 4) := by
  have h : get_next_leap_year_steps 2096 = 8 := by
    rw [steps_of_not_leap 2096 (by decide)]; norm_num
    rw [steps_of_not_leap 2097 (by decide)]; norm_num
    rw [steps_of_not_leap 2098 (by decide)]; norm_num
    rw [steps_of_not_leap 2099 (by decide)]; norm_num
    rw [steps_of_not_leap 2100 (by decide)]; norm_num
    rw [steps_of_not_leap 2101 (by decide)]; norm_num
    rw [steps_of_not_leap 2102 (by decide)]; norm_num
    rw [steps_of_leap 2103 (by decide)]
  exact ⟨h, by omega⟩

/-- C9 (amended): for every input year `get_next_leap_year` terminates —
it advances one year per invocation, by exactly
`get_next_leap_year_steps year` steps in total — and its tail recursion
takes at most 8 steps. -/
theorem gnly_terminates_within_eight (year : Int) :
    get_next_leap_year year = year + get_next_leap_year_steps year ∧
      get_next_leap_year_steps year ≤ 8 := by
  obtain ⟨hle, heq⟩ := steps_bounded 8 year (leap_in_eight year)
  exact ⟨heq, hle⟩

/-- C10: for a timezone-aware datetime, `to_local (to_utc dt)` denotes the
same instant as `dt`, whatever default timezone is configured. -/
theorem to_local_to_utc_instant (cfg : Option Int) (sys : Int)
    (dt : PyDateTime) (o : Int) (ho : dt.tz = some o) :
    instantOf (to_local cfg sys (to_utc cfg sys dt)) = instantOf dt := by
  obtain ⟨w, tz⟩ := dt
  simp only at ho
  subst ho
  simp [to_utc, to_local, astimezone, instantOf, default_timezone]

/-- Witness for C10 at a concrete aware datetime. -/
theorem to_local_to_utc_instant_witness :
    instantOf (to_local (some 120) 45 (to_utc (some 120) 45 ⟨1000, some 90⟩)) =
      instantOf ⟨1000, some 90⟩ :=
  to_local_to_utc_instant (some 120) 45 ⟨1000, some 90⟩ 90 rfl

/-! ## Exact rational values

The parser works with exact rational values (the Python code uses floats;
the specified values — thirds, reciprocal ranks, decimal fractions — are
exact rationals).  `Frac` is an unreduced fraction: a numerator and a
positive denominator, compared by cross-multiplication and injected into
`ℚ` at the API boundary by `Frac.toRat`. -/

/-- An unreduced rational value: numerator over (intended positive)
denominator. -/
structure Frac where
  num : Int
  den : Nat
  deriving DecidableEq, Repr

instance : OfNat Frac n := ⟨⟨n, 1⟩⟩

/-- Fraction addition (no reduction). -/
def Frac.add (a b : Frac) : Frac :=
  ⟨a.num * b.den + b.num * a.den, a.den * b.den⟩

/-- Fraction multiplication (no reduction). -/
def Frac.mul (a b : Frac) : Frac := ⟨a.num * b.num, a.den * b.den⟩

/-- Fraction negation. -/
def Frac.neg (a : Frac) : Frac := ⟨-a.num, a.den⟩

/-- Fraction division (no reduction; sign moved to the numerator). -/
def Frac.div (a b : Frac) : Frac :=
  if 0 ≤ b.num then ⟨a.num * b.den, a.den * b.num.toNat⟩
  else ⟨-(a.num * b.den), a.den * (-b.num).toNat⟩

/-- Fraction power. -/
def Frac.pow (f : Frac) (k : Nat) : Frac := ⟨f.num ^ k, f.den ^ k⟩

/-- Value equality of unreduced fractions: cross-multiplication. -/
def Frac.beq (a b : Frac) : Bool := a.num * b.den == b.num * a.den

instance : Add Frac := ⟨Frac.add⟩

instance : Mul Frac := ⟨Frac.mul⟩

instance : Neg Frac := ⟨Frac.neg⟩

instance : Div Frac := ⟨Frac.div⟩

instance : HPow Frac Nat Frac := ⟨Frac.pow⟩

/-- The rational number denoted by a `Frac`. -/
def Frac.toRat (f : Frac) : ℚ := (f.num : ℚ) / (f.den : ℚ)

/-! ## Embedding of `src/lingua_nostra/lang/common_data_en.py`

The English lexical tables, value-by-value.  Python dicts / ordered dicts
of number→word become association lists `List (Frac × String)`; word lookup
inverts them (`invert_dict` in the source), which is well defined because
no word appears twice within one table. -/

/-- `_NUM_STRING_EN`. -/
def _NUM_STRING_EN : List (Frac × String) :=
  [((0 : Frac), "zero"),
  ((1 : Frac), "one"),
  ((2 : Frac), "two"),
  ((3 : Frac), "three"),
  ((4 : Frac), "four"),
  ((5 : Frac), "five"),
  ((6 : Frac), "six"),
  ((7 : Frac), "seven"),
  ((8 : Frac), "eight"),
  ((9 : Frac), "nine"),
  ((10 : Frac), "ten"),
  ((11 : Frac), "eleven"),
  ((12 : Frac), "twelve"),
  ((13 : Frac), "thirteen"),
  ((14 : Frac), "fourteen"),
  ((15 : Frac), "fifteen"),
  ((16 : Frac), "sixteen"),
  ((17 : Frac), "seventeen"),
  ((18 : Frac), "eighteen"),
  ((19 : Frac), "nineteen"),
  ((20 : Frac), "twenty"),
  ((30 : Frac), "thirty"),
  ((40 : Frac), "forty"),
  ((50 : Frac), "fifty"),
  ((60 : Frac), "sixty"),
  ((70 : Frac), "seventy"),
  ((80 : Frac), "eighty"),
  ((90 : Frac), "ninety")]

/-- `_FRACTION_STRING_EN` (denominator → word; spellings as in source). -/
def _FRACTION_STRING_EN : List (Frac × String) :=
  [((2 : Frac), "half"),
  ((3 : Frac), "third"),
  ((4 : Frac), "forth"),
  ((5 : Frac), "fifth"),
  ((6 : Frac), "sixth"),
  ((7 : Frac), "seventh"),
  ((8 : Frac), "eigth"),
  ((9 : Frac), "ninth"),
  ((10 : Frac), "tenth"),
  ((11 : Frac), "eleventh"),
  ((12 : Frac), "twelveth"),
  ((13 : Frac), "thirteenth"),
  ((14 : Frac), "fourteenth"),
  ((15 : Frac), "fifteenth"),
  ((16 : Frac), "sixteenth"),
  ((17 : Frac), "seventeenth"),
  ((18 : Frac), "eighteenth"),
  ((19 : Frac), "nineteenth"),
  ((20 : Frac), "twentyith")]

/-- `_LONG_SCALE_EN`. -/
def _LONG_SCALE_EN : List (Frac × String) :=
  [((100 : Frac), "hundred"),
  ((1000 : Frac), "thousand"),
  ((1000000 : Frac), "million"),
  ((10 : Frac) ^ 12, "billion"),
  ((10 : Frac) ^ 18, "trillion"),
  ((10 : Frac) ^ 24, "quadrillion"),
  ((10 : Frac) ^ 30, "quintillion"),
  ((10 : Frac) ^ 36, "sextillion"),
  ((10 : Frac) ^ 42, "septillion"),
  ((10 : Frac) ^ 48, "octillion"),
  ((10 : Frac) ^ 54, "nonillion"),
  ((10 : Frac) ^ 60, "decillion"),
  ((10 : Frac) ^ 66, "undecillion"),
  ((10 : Frac) ^ 72, "duodecillion"),
  ((10 : Frac) ^ 78, "tredecillion"),
  ((10 : Frac) ^ 84, "quattuordecillion"),
  ((10 : Frac) ^ 90, "quinquadecillion"),
  ((10 : Frac) ^ 96, "sedecillion"),
  ((10 : Frac) ^ 102, "septendecillion"),
  ((10 : Frac) ^ 108, "octodecillion"),
  ((10 : Frac) ^ 114, "novendecillion"),
  ((10 : Frac) ^ 120, "vigintillion"),
  ((10 : Frac) ^ 306, "unquinquagintillion"),
  ((10 : Frac) ^ 312, "duoquinquagintillion"),
  ((10 : Frac) ^ 336, "sesquinquagintillion"),
  ((10 : Frac) ^ 366, "unsexagintillion")]

/-- `_SHORT_SCALE_EN`. -/
def _SHORT_SCALE_EN : List (Frac × String) :=
  [((100 : Frac), "hundred"),
  ((1000 : Frac), "thousand"),
  ((1000000 : Frac), "million"),
  ((10 : Frac) ^ 9, "billion"),
  ((10 : Frac) ^ 12, "trillion"),
  ((10 : Frac) ^ 15, "quadrillion"),
  ((10 : Frac) ^ 18, "quintillion"),
  ((10 : Frac) ^ 21, "sextillion"),
  ((10 : Frac) ^ 24, "septillion"),
  ((10 : Frac) ^ 27, "octillion"),
  ((10 : Frac) ^ 30, "nonillion"),
  ((10 : Frac) ^ 33, "decillion"),
  ((10 : Frac) ^ 36, "undecillion"),
  ((10 : Frac) ^ 39, "duodecillion"),
  ((10 : Frac) ^ 42, "tredecillion"),
  ((10 : Frac) ^ 45, "quattuordecillion"),
  ((10 : Frac) ^ 48, "quinquadecillion"),
  ((10 : Frac) ^ 51, "sedecillion"),
  ((10 : Frac) ^ 54, "septendecillion"),
  ((10 : Frac) ^ 57, "octodecillion"),
  ((10 : Frac) ^ 60, "novendecillion"),
  ((10 : Frac) ^ 63, "vigintillion"),
  ((10 : Frac) ^ 66, "unvigintillion"),
  ((10 : Frac) ^ 69, "uuovigintillion"),
  ((10 : Frac) ^ 72, "tresvigintillion"),
  ((10 : Frac) ^ 75, "quattuorvigintillion"),
  ((10 : Frac) ^ 78, "quinquavigintillion"),
  ((10 : Frac) ^ 81, "qesvigintillion"),
  ((10 : Frac) ^ 84, "septemvigintillion"),
  ((10 : Frac) ^ 87, "octovigintillion"),
  ((10 : Frac) ^ 90, "novemvigintillion"),
  ((10 : Frac) ^ 93, "trigintillion"),
  ((10 : Frac) ^ 96, "untrigintillion"),
  ((10 : Frac) ^ 99, "duotrigintillion"),
  ((10 : Frac) ^ 102, "trestrigintillion"),
  ((10 : Frac) ^ 105, "quattuortrigintillion"),
  ((10 : Frac) ^ 108, "quinquatrigintillion"),
  ((10 : Frac) ^ 111, "sestrigintillion"),
  ((10 : Frac) ^ 114, "septentrigintillion"),
  ((10 : Frac) ^ 117, "octotrigintillion"),
  ((10 : Frac) ^ 120, "noventrigintillion"),
  ((10 : Frac) ^ 123, "quadragintillion"),
  ((10 : Frac) ^ 153, "quinquagintillion"),
  ((10 : Frac) ^ 183, "sexagintillion"),
  ((10 : Frac) ^ 213, "septuagintillion"),
  ((10 : Frac) ^ 243, "octogintillion"),
  ((10 : Frac) ^ 273, "nonagintillion"),
  ((10 : Frac) ^ 303, "centillion"),
  ((10 : Frac) ^ 306, "uncentillion"),
  ((10 : Frac) ^ 309, "duocentillion"),
  ((10 : Frac) ^ 312, "trescentillion"),
  ((10 : Frac) ^ 333, "decicentillion"),
  ((10 : Frac) ^ 336, "undecicentillion"),
  ((10 : Frac) ^ 363, "viginticentillion"),
  ((10 : Frac) ^ 366, "unviginticentillion"),
  ((10 : Frac) ^ 393, "trigintacentillion"),
  ((10 : Frac) ^ 423, "quadragintacentillion"),
  ((10 : Frac) ^ 453, "quinquagintacentillion"),
  ((10 : Frac) ^ 483, "sexagintacentillion"),
  ((10 : Frac) ^ 513, "septuagintacentillion"),
  ((10 : Frac) ^ 543, "ctogintacentillion"),
  ((10 : Frac) ^ 573, "nonagintacentillion"),
  ((10 : Frac) ^ 603, "ducentillion"),
  ((10 : Frac) ^ 903, "trecentillion"),
  ((10 : Frac) ^ 1203, "quadringentillion"),
  ((10 : Frac) ^ 1503, "quingentillion"),
  ((10 : Frac) ^ 1803, "sescentillion"),
  ((10 : Frac) ^ 2103, "septingentillion"),
  ((10 : Frac) ^ 2403, "octingentillion"),
  ((10 : Frac) ^ 2703, "nongentillion"),
  ((10 : Frac) ^ 3003, "millinillion")]

/-- `_ORDINAL_BASE_EN`. -/
def _ORDINAL_BASE_EN : List (Frac × String) :=
  [((1 : Frac), "first"),
  ((2 : Frac), "second"),
  ((3 : Frac), "third"),
  ((4 : Frac), "fourth"),
  ((5 : Frac), "fifth"),
  ((6 : Frac), "sixth"),
  ((7 : Frac), "seventh"),
  ((8 : Frac), "eighth"),
  ((9 : Frac), "ninth"),
  ((10 : Frac), "tenth"),
  ((11 : Frac), "eleventh"),
  ((12 : Frac), "twelfth"),
  ((13 : Frac), "thirteenth"),
  ((14 : Frac), "fourteenth"),
  ((15 : Frac), "fifteenth"),
  ((16 : Frac), "sixteenth"),
  ((17 : Frac), "seventeenth"),
  ((18 : Frac), "eighteenth"),
  ((19 : Frac), "nineteenth"),
  ((20 : Frac), "twentieth"),
  ((30 : Frac), "thirtieth"),
  ((40 : Frac), "fortieth"),
  ((50 : Frac), "fiftieth"),
  ((60 : Frac), "sixtieth"),
  ((70 : Frac), "seventieth"),
  ((80 : Frac), "eightieth"),
  ((90 : Frac), "ninetieth"),
  ((10 : Frac) ^ 2, "hundredth"),
  ((10 : Frac) ^ 3, "thousandth")]

/-- `_SHORT_ORDINAL_EN`: ordinal forms of the short-scale names, merged
with `_ORDINAL_BASE_EN` (the source updates the dict with the base). -/
def _SHORT_ORDINAL_EN : List (Frac × String) :=
  [((10 : Frac) ^ 6, "millionth"),
  ((10 : Frac) ^ 9, "billionth"),
  ((10 : Frac) ^ 12, "trillionth"),
  ((10 : Frac) ^ 15, "quadrillionth"),
  ((10 : Frac) ^ 18, "quintillionth"),
  ((10 : Frac) ^ 21, "sextillionth"),
  ((10 : Frac) ^ 24, "septillionth"),
  ((10 : Frac) ^ 27, "octillionth"),
  ((10 : Frac) ^ 30, "nonillionth"),
  ((10 : Frac) ^ 33, "decillionth")] ++ _ORDINAL_BASE_EN

/-- `_LONG_ORDINAL_EN`: ordinal forms of the long-scale names, merged
with `_ORDINAL_BASE_EN`. -/
def _LONG_ORDINAL_EN : List (Frac × String) :=
  [((10 : Frac) ^ 6, "millionth"),
  ((10 : Frac) ^ 12, "billionth"),
  ((10 : Frac) ^ 18, "trillionth"),
  ((10 : Frac) ^ 24, "quadrillionth"),
  ((10 : Frac) ^ 30, "quintillionth"),
  ((10 : Frac) ^ 36, "sextillionth"),
  ((10 : Frac) ^ 42, "septillionth"),
  ((10 : Frac) ^ 48, "octillionth"),
  ((10 : Frac) ^ 54, "nonillionth"),
  ((10 : Frac) ^ 60, "decillionth")] ++ _ORDINAL_BASE_EN

/-- `_NEGATIVES_EN`. -/
def _NEGATIVES_EN : List String := ["negative", "minus"]

/-- `_FRACTION_MARKER_EN`. -/
def _FRACTION_MARKER_EN : List String := ["and"]

/-- `_DECIMAL_MARKER_EN`. -/
def _DECIMAL_MARKER_EN : List String := ["point", "dot"]

/-- `_SPOKEN_EXTRA_NUM_EN`. -/
def _SPOKEN_EXTRA_NUM_EN : List (Frac × String) :=
  [((1 / 2 : Frac), "half"), ((1 / 2 : Frac), "halves"), ((2 : Frac), "couple")]

/-- `_generate_plurals_en`: English plural forms append `s`. -/
def _generate_plurals_en (originals : List (Frac × String)) :
    List (Frac × String) :=
  originals.map (fun p => (p.1, p.2 ++ "s"))

/-- Word → value lookup over an association table (`invert_dict`). -/
def wordLookup (tbl : List (Frac × String)) (w : String) : Option Frac :=
  (tbl.find? (fun p => p.2 == w)).map Prod.fst

/-- Cardinal number word lookup: `_STRING_NUM_EN`, its generated plurals,
and the spoken extras (`half`, `halves`, `couple`). -/
def numWordVal (w : String) : Option Frac :=
  wordLookup (_NUM_STRING_EN ++ _generate_plurals_en _NUM_STRING_EN ++
    _SPOKEN_EXTRA_NUM_EN) w

/-- Scale word lookup (`_MULTIPLIES_SHORT_SCALE_EN` /
`_MULTIPLIES_LONG_SCALE_EN`): the selected scale table and its plurals. -/
def scaleVal (shortScale : Bool) (w : String) : Option Frac :=
  let tbl := if shortScale then _SHORT_SCALE_EN else _LONG_SCALE_EN
  wordLookup (tbl ++ _generate_plurals_en tbl) w

/-- Ordinal word lookup (`_STRING_SHORT_ORDINAL_EN` /
`_STRING_LONG_ORDINAL_EN`). -/
def ordinalVal (shortScale : Bool) (w : String) : Option Frac :=
  wordLookup (if shortScale then _SHORT_ORDINAL_EN else _LONG_ORDINAL_EN) w

/-- Fraction word (or its plural), from `_FRACTION_STRING_EN`. -/
def isFractionWord (w : String) : Bool :=
  (wordLookup (_FRACTION_STRING_EN ++
    _generate_plurals_en _FRACTION_STRING_EN) w).isSome

/-! ## Tokenizer and digit literals

Modelled from the spec (§4.1): the tokenizer splits on whitespace,
collapsing runs of spaces; commas become stand-alone tokens (the duration
leftover in the test matrix keeps `,` tokens).  The source module
`lingua_nostra/lang/parse_en.py` that performs tokenization is not in the
source tree. -/

/-- Accumulating splitter over the character list: emits a token at each
space, detaches commas into their own tokens. -/
def splitToks : List Char → List Char → List String
  | [], acc => if acc.isEmpty then [] else [String.mk acc.reverse]
  | c :: cs, acc =>
    if c = ' ' then
      if acc.isEmpty then splitToks cs []
      else String.mk acc.reverse :: splitToks cs []
    else if c = ',' then
      if acc.isEmpty then "," :: splitToks cs []
      else String.mk acc.reverse :: "," :: splitToks cs []
    else splitToks cs (c :: acc)

/-- Modelled from the spec: tokenize free text into word tokens. -/
def tokenize (s : String) : List String := splitToks s.data []

/-- Re-join the unconsumed tokens with single spaces (leftover text). -/
def joinToks : List String → String
  | [] => ""
  | [t] => t
  | t :: rest => t ++ " " ++ joinToks rest

/-- Digit-string prefix accumulator. -/
def digitsToNatAux : List Char → Nat → Option Nat
  | [], acc => some acc
  | c :: cs, acc =>
    if c.isDigit then digitsToNatAux cs (acc * 10 + (c.toNat - 48))
    else none

/-- A non-empty all-digit character list, as a natural number. -/
def digitsToNat : List Char → Option Nat
  | [] => none
  | cs => digitsToNatAux cs 0

/-- Modelled from the spec: a digit literal token (`"497"`, `"91.6"`),
with `.` as the decimal marker. -/
def digitVal (s : String) : Option Frac :=
  match s.data.splitOn '.' with
  | [a] => (digitsToNat a).map (fun x => (⟨(x : Int), 1⟩ : Frac))
  | [a, b] =>
    match digitsToNat a, digitsToNat b with
    | some x, some y => some (⟨(x : Int), 1⟩ + (⟨(y : Int), 10 ^ b.length⟩ : Frac))
    | _, _ => none
  | _ => none

/-! ## Number extractor

Modelled from the spec (§4.2): the module `lingua_nostra/lang/parse_en.py`
holding `extract_number` is not in the source tree.  The model below
implements, over the real lexical tables, the specified single-pass
left-to-right scan: a running total of closed groups plus a current group
(`ScaleState`), `hundred` multiplying the current group, larger scale
words closing the current group into the total, a decimal marker
switching to sequential fractional digits, `and` joining a fraction
(`a half`) onto a resolved phrase, a leading negative marker, `a couple`
resolving to 2, and the ordinal policy: under `ordinals=True` an ordinal
word yields its rank, under `ordinals=False` a lone ordinal yields its
reciprocal fraction, and under `ordinals=None` an ambiguous ordinal word
is not a match. -/

/-- Fractional-digit accumulation after a spoken decimal marker: number
words are appended as sequential digits.  Returns numerator, denominator,
number of tokens consumed, and the remaining tokens. -/
def readFrac : List String → Nat → Nat → Nat → Nat × Nat × Nat × List String
  | [], nu, de, k => (nu, de, k, [])
  | t :: rest, nu, de, k =>
    match numWordVal t with
    | some v =>
      if v.den = 1 ∧ 0 ≤ v.num ∧ v.num < 10 then
        readFrac rest (nu * 10 + v.num.toNat) (de * 10) (k + 1)
      else if v.den = 1 ∧ 0 ≤ v.num ∧ v.num < 100 then
        readFrac rest (nu * 100 + v.num.toNat) (de * 100) (k + 1)
      else (nu, de, k, t :: rest)
    | none => (nu, de, k, t :: rest)

/-- The scale-accumulator scan of a single number phrase.  Arguments:
tokens, running total of closed groups, current group, tokens consumed so
far.  Returns the resolved value, the number of tokens consumed and the
remaining tokens. -/
def goNum (shortScale : Bool) (ordinals : Option Bool) :
    List String → Frac → Frac → Nat → Frac × Nat × List String
  | [], tot, cur, n => (tot + cur, n, [])
  | t :: rest, tot, cur, n =>
    if t == "and" && n != 0 then
      match rest with
      | "a" :: "half" :: rest2 => (tot + cur + 1 / 2, n + 3, rest2)
      | _ => (tot + cur, n, t :: rest)
    else if (t == "a" || t == "an") && n == 0 then
      match rest with
      | "couple" :: rest2 => goNum shortScale ordinals rest2 tot 2 2
      | _ => (tot + cur, n, t :: rest)
    else
      match digitVal t with
      | some v => goNum shortScale ordinals rest tot (cur + v) (n + 1)
      | none =>
      match numWordVal t with
      | some v => goNum shortScale ordinals rest tot (cur + v) (n + 1)
      | none =>
      match scaleVal shortScale t with
      | some s =>
        if s.beq 100 then
          goNum shortScale ordinals rest tot
            ((if cur.beq 0 then 1 else cur) * 100) (n + 1)
        else
          goNum shortScale ordinals rest
            (tot + (if cur.beq 0 then 1 else cur) * s) 0 (n + 1)
      | none =>
      match ordinalVal shortScale t with
      | some r =>
        match ordinals with
        | some true => (tot + cur + r, n + 1, rest)
        | some false =>
          if n == 0 then (1 / r, 1, rest) else (tot + cur, n, t :: rest)
        | none => (tot + cur, n, t :: rest)
      | none =>
      if _DECIMAL_MARKER_EN.contains t && n != 0 then
        match readFrac rest 0 1 0 with
        | (nu, de, k, rem) =>
          if k == 0 then (tot + cur, n, t :: rest)
          else (tot + cur + (⟨(nu : Int), de⟩ : Frac), n + 1 + k, rem)
      else (tot + cur, n, t :: rest)

/-- One candidate number phrase at the head of the token list, including
a leading negative marker.  A consumed-token count of 0 means no match. -/
def parseNum (shortScale : Bool) (ordinals : Option Bool)
    (toks : List String) : Frac × Nat × List String :=
  match toks with
  | [] => (0, 0, [])
  | t :: rest =>
    if _NEGATIVES_EN.contains t then
      match goNum shortScale ordinals rest 0 0 0 with
      | (v, n, rem) => if n != 0 then (-v, n + 1, rem) else (0, 0, toks)
    else goNum shortScale ordinals toks 0 0 0

/-- Modelled from the spec: `extract_number` over the token sequence —
return the first fully-resolved candidate in left-to-right order, `none`
(the `False` sentinel) when no candidate parses. -/
def extract_number_toks (ordinals : Option Bool) (shortScale : Bool) :
    List String → Option Frac
  | [] => none
  | t :: rest =>
    match parseNum shortScale ordinals (t :: rest) with
    | (v, n, _) =>
      if n != 0 then some v else extract_number_toks ordinals shortScale rest

/-- Modelled from the spec: `extract_number(text, ordinals, short_scale)`.
`none` models the `False` sentinel, `some x` a resolved rational value. -/
def extract_number (ordinals : Option Bool) (shortScale : Bool)
    (text : String) : Option ℚ :=
  (extract_number_toks ordinals shortScale (tokenize text)).map Frac.toRat

/-! ## Duration extractor

Modelled from the spec (§4.3): the module `lingua_nostra/lang/parse_en.py`
holding `extract_duration` is not in the source tree.  The model scans for
`(number, unit-word)` pairs, sums all contributions into one aggregate
duration (kept exact, in seconds), and removes exactly the consumed token
spans from the leftover. -/

/-- Duration unit words and their length in seconds. -/
def durUnitSecs (w : String) : Option Nat :=
  if w == "second" || w == "seconds" then some 1
  else if w == "minute" || w == "minutes" then some 60
  else if w == "hour" || w == "hours" then some 3600
  else if w == "day" || w == "days" then some 86400
  else if w == "week" || w == "weeks" then some 604800
  else none

/-- One fuelled left-to-right pass: at each position, a number phrase
immediately followed by a unit word is consumed and added to the running
duration; any other token goes to the leftover.  The fuel is the token
count; it only bounds the recursion and never runs out when initialised
that way. -/
def scanDur : Nat → List String → Frac × List String
  | 0, toks => (0, toks)
  | _ + 1, [] => (0, [])
  | fuel + 1, t :: rest =>
    match parseNum true none (t :: rest) with
    | (v, n, rem) =>
      if n != 0 then
        match rem with
        | u :: rem2 =>
          match durUnitSecs u with
          | some secs =>
            let r := scanDur fuel rem2
            (v * ⟨(secs : Int), 1⟩ + r.1, r.2)
          | none =>
            let r := scanDur fuel rest
            (r.1, t :: r.2)
        | [] =>
          let r := scanDur fuel rest
          (r.1, t :: r.2)
      else
        let r := scanDur fuel rest
        (r.1, t :: r.2)

/-- Modelled from the spec: `extract_duration(text)` — aggregate duration
in seconds (exact rational) plus the leftover text. -/
def extract_duration (text : String) : ℚ × String :=
  let toks := tokenize text
  let r := scanDur toks.length toks
  (r.1.toRat, joinToks r.2)

/-- `timedelta(weeks, days, hours, minutes, seconds)` in seconds. -/
def timedelta (weeks days hours minutes seconds : ℚ) : ℚ :=
  weeks * 604800 + days * 86400 + hours * 3600 + minutes * 60 + seconds

/-! ## DateTime resolver

Modelled from the spec (§4.4): the module `lingua_nostra/lang/parse_en.py`
holding `extract_datetime` is not in the source tree.  The model covers
the claim-relevant constructs: additive duration offsets over day-level
units (`in a couple weeks`, `8 weeks and 2 days`), bare `N o'clock` hour
references resolved by the anchor's period of day, span removal into the
leftover, and the contract that with no day-level and no time-level match
the result is `None` (a bare duration-unit noun without a number does not
match). -/

/-- A calendar date. -/
structure Date where
  year : Nat
  month : Nat
  day : Nat
  deriving DecidableEq, Repr

/-- A wall-clock datetime as produced by `extract_datetime`. -/
structure LocalDateTime where
  year : Nat
  month : Nat
  day : Nat
  hour : Nat
  minute : Nat
  second : Nat
  deriving DecidableEq, Repr

/-- Days in a month of the Gregorian calendar; February depends on
`is_leap_year` from `time.py`. -/
def daysInMonth (y m : Nat) : Nat :=
  if m == 2 then (if is_leap_year (y : Int) then 29 else 28)
  else if m == 4 || m == 6 || m == 9 || m == 11 then 30
  else 31

/-- The following calendar day. -/
def nextDay (d : Date) : Date :=
  if d.day < daysInMonth d.year d.month then ⟨d.year, d.month, d.day + 1⟩
  else if d.month < 12 then ⟨d.year, d.month + 1, 1⟩
  else ⟨d.year + 1, 1, 1⟩

/-- Advance a date by a number of days. -/
def addDays : Date → Nat → Date
  | d, 0 => d
  | d, n + 1 => addDays (nextDay d) n

/-- The same day of the following month. -/
def nextMonth (d : Date) : Date :=
  if d.month < 12 then ⟨d.year, d.month + 1, d.day⟩
  else ⟨d.year + 1, 1, d.day⟩

/-- Advance a date by calendar months. -/
def addMonths : Date → Nat → Date
  | d, 0 => d
  | d, n + 1 => addMonths (nextMonth d) n

/-- Day-level offsets accumulated from duration phrases. -/
structure DayOffs where
  days : Nat
  months : Nat
  years : Nat
  deriving DecidableEq, Repr

/-- Componentwise sum of day-level offsets. -/
def DayOffs.add (a b : DayOffs) : DayOffs :=
  ⟨a.days + b.days, a.months + b.months, a.years + b.years⟩

/-- Apply the accumulated offsets to a date (years, then months, then
days). -/
def DayOffs.apply (o : DayOffs) (d : Date) : Date :=
  addDays (addMonths ⟨d.year + o.years, d.month, d.day⟩ o.months) o.days

/-- Day-level duration units and their offsets at a given count. -/
def dateUnitOffs (w : String) (v : Nat) : Option DayOffs :=
  if w == "day" || w == "days" then some ⟨v, 0, 0⟩
  else if w == "week" || w == "weeks" then some ⟨7 * v, 0, 0⟩
  else if w == "month" || w == "months" then some ⟨0, v, 0⟩
  else if w == "year" || w == "years" then some ⟨0, 0, v⟩
  else none

/-- A non-negative whole number denoted by a `Frac`, if any. -/
def Frac.toNatOpt (f : Frac) : Option Nat :=
  if f.den = 1 ∧ 0 ≤ f.num then some f.num.toNat else none

/-- A day-level duration phrase at the head of the token list: a whole
number followed by a day-level unit word, optionally chained with `and`
onto further such phrases.  Returns the combined offset and the remaining
tokens. -/
def durParse : Nat → List String → Option (DayOffs × List String)
  | 0, _ => none
  | fuel + 1, toks =>
    match parseNum true none toks with
    | (v, n, rem) =>
      if n != 0 then
        match v.toNatOpt with
        | some nv =>
          match rem with
          | u :: rem2 =>
            match dateUnitOffs u nv with
            | some o =>
              match rem2 with
              | "and" :: rest3 =>
                match durParse fuel rest3 with
                | some (o2, rem4) => some (o.add o2, rem4)
                | none => some (o, rem2)
              | _ => some (o, rem2)
            | none => none
          | [] => none
        | none => none
      else none

/-- The spelling of the clock-hour marker token. -/
def oclockTok : String := "o\x27clock"

/-- A clock-hour digit token (1 … 12). -/
def digitHour (t : String) : Option Nat :=
  match digitVal t with
  | some f => if f.den = 1 ∧ 1 ≤ f.num ∧ f.num ≤ 12 then some f.num.toNat
              else none
  | none => none

/-- Result of the date/time token scan. -/
structure DTScan where
  offs : DayOffs
  oclock : Option Nat
  foundDay : Bool
  leftover : List String
  deriving DecidableEq, Repr

/-- The fuelled date/time pass: duration-offset phrases (an optional
leading `in` is consumed with them) accumulate day-level offsets; a digit
hour followed by the o'clock marker records a bare hour; every other
token goes to the leftover. -/
def scanDT : Nat → List String → DTScan
  | 0, toks => ⟨⟨0, 0, 0⟩, none, false, toks⟩
  | _ + 1, [] => ⟨⟨0, 0, 0⟩, none, false, []⟩
  | fuel + 1, t :: rest =>
    match durParse (fuel + 1) (if t == "in" then rest else t :: rest) with
    | some (o, rem) =>
      let r := scanDT fuel rem
      ⟨o.add r.offs, r.oclock, true, r.leftover⟩
    | none =>
      if (digitHour t).isSome && rest.head? == some oclockTok then
        let r := scanDT fuel (rest.drop 1)
        ⟨r.offs, some ((digitHour t).getD 0), r.foundDay, r.leftover⟩
      else
        let r := scanDT fuel rest
        ⟨r.offs, r.oclock, r.foundDay, t :: r.leftover⟩

/-- Assemble the scan result against the anchor: a day-level match yields
the offset date at midnight; otherwise a bare o'clock hour yields the
anchor's date with AM chosen for a morning anchor and PM otherwise; with
neither, the extraction fails (`none`). -/
def assembleDT (anchor : LocalDateTime) (s : DTScan) :
    Option (LocalDateTime × String) :=
  if s.foundDay then
    let d := s.offs.apply ⟨anchor.year, anchor.month, anchor.day⟩
    some (⟨d.year, d.month, d.day, 0, 0, 0⟩, joinToks s.leftover)
  else
    match s.oclock with
    | some h =>
      let hr := if anchor.hour < 12 then h else h % 12 + 12
      some (⟨anchor.year, anchor.month, anchor.day, hr, 0, 0⟩,
        joinToks s.leftover)
    | none => none

/-- Modelled from the spec: `extract_datetime` over the token sequence. -/
def extract_datetime_toks (anchor : LocalDateTime) (toks : List String) :
    Option (LocalDateTime × String) :=
  assembleDT anchor (scanDT toks.length toks)

/-- Modelled from the spec: `extract_datetime(text, anchor)` — the
resolved datetime and the leftover text, or `none` when nothing date- or
time-like matched. -/
def extract_datetime (anchor : LocalDateTime) (text : String) :
    Option (LocalDateTime × String) :=
  extract_datetime_toks anchor (tokenize text)

/-! ## Numeric and date/time trigger vocabulary

A token is a numeric indicator when the number extractor can react to it
in any way: digit literals, cardinal words and their plurals, scale words
of either scale, ordinal words of either scale, fraction words, negative
markers, fraction markers (`and`), decimal markers, and the articles that
can open `a couple` / `a half`.  Date/time indicators additionally cover
duration unit words, the day-level unit nouns, `in`, and the o'clock
marker. -/

/-- Any token the number extractor can react to. -/
def isNumericIndicator (t : String) : Bool :=
  (digitVal t).isSome || (numWordVal t).isSome ||
  (scaleVal true t).isSome || (scaleVal false t).isSome ||
  (ordinalVal true t).isSome || (ordinalVal false t).isSome ||
  isFractionWord t || _NEGATIVES_EN.contains t ||
  _FRACTION_MARKER_EN.contains t || _DECIMAL_MARKER_EN.contains t ||
  t == "a" || t == "an"

/-- Any token the date/time resolver can react to. -/
def isDateTimeIndicator (t : String) : Bool :=
  isNumericIndicator t || (durUnitSecs t).isSome ||
  (dateUnitOffs t 1).isSome || t == "in" || t == oclockTok

/-- Unpack `isNumericIndicator t = false` into the individual lookup
failures the scan lemmas need. -/
lemma indicator_parts (t : String) (h : isNumericIndicator t = false) :
    digitVal t = none ∧ numWordVal t = none ∧ scaleVal true t = none ∧
    scaleVal false t = none ∧ ordinalVal true t = none ∧
    ordinalVal false t = none ∧ _NEGATIVES_EN.contains t = false ∧
    _DECIMAL_MARKER_EN.contains t = false ∧ (t == "and") = false ∧
    (t == "a") = false ∧ (t == "an") = false := by
  simp only [isNumericIndicator, Bool.or_eq_false_iff] at h
  obtain ⟨⟨⟨⟨⟨⟨⟨⟨⟨⟨⟨hdig, hnum⟩, hsc1⟩, hsc0⟩, ho1⟩, ho0⟩, _⟩, hneg⟩,
    hfm⟩, hdm⟩, ha⟩, han⟩ := h
  have hand : (t == "and") = false := by
    have h2 : _FRACTION_MARKER_EN.contains t = false := hfm
    simp only [_FRACTION_MARKER_EN, List.contains_cons,
      List.contains_nil, Bool.or_eq_false_iff] at h2
    exact h2.1
  refine ⟨?_, ?_, ?_, ?_, ?_, ?_, hneg, hdm, hand, ha, han⟩
  · cases hc : digitVal t <;> simp_all
  · cases hc : numWordVal t <;> simp_all
  · cases hc : scaleVal true t <;> simp_all
  · cases hc : scaleVal false t <;> simp_all
  · cases hc : ordinalVal true t <;> simp_all
  · cases hc : ordinalVal false t <;> simp_all

/-- At a token the extractor cannot react to, the number-phrase scan stops
with nothing consumed. -/
lemma goNum_stop (short : Bool) (ord : Option Bool) (t : String)
    (rest : List String)
    (hdig : digitVal t = none) (hnum : numWordVal t = none)
    (hscale : scaleVal short t = none) (hord : ordinalVal short t = none)
    (ha : (t == "a") = false) (han : (t == "an") = false) :
    goNum short ord (t :: rest) 0 0 0 = (0, 0, t :: rest) := by
  have hz : (0 + 0 : Frac) = 0 := rfl
  rw [goNum.eq_def]
  simp [hdig, hnum, hscale, hord, ha, han, hz]

/-- At a non-indicator token, `parseNum` does not match. -/
lemma parseNum_not_indicator (short : Bool) (ord : Option Bool) (t : String)
    (rest : List String) (h : isNumericIndicator t = false) :
    parseNum short ord (t :: rest) = (0, 0, t :: rest) := by
  obtain ⟨hdig, hnum, hsc1, hsc0, ho1, ho0, hneg, hdm, hand, ha, han⟩ :=
    indicator_parts t h
  have hsc : scaleVal short t = none := by cases short <;> assumption
  have ho : ordinalVal short t = none := by cases short <;> assumption
  simp only [parseNum, hneg, Bool.false_eq_true, if_false]
  exact goNum_stop short ord t rest hdig hnum hsc ho ha han

/-- The extractor skips a non-indicator token. -/
lemma extract_number_toks_cons (ord : Option Bool) (short : Bool)
    (t : String) (rest : List String) (h : isNumericIndicator t = false) :
    extract_number_toks ord short (t :: rest) =
      extract_number_toks ord short rest := by
  simp only [extract_number_toks,
    parseNum_not_indicator short ord t rest h]
  simp

/-- A token sequence with no numeric indicator yields no number. -/
lemma extract_number_toks_no_indicator (ord : Option Bool) (short : Bool) :
    ∀ toks : List String, (∀ t ∈ toks, isNumericIndicator t = false) →
      extract_number_toks ord short toks = none := by
  intro toks
  induction toks with
  | nil => intro _; rfl
  | cons t rest ih =>
    intro h
    rw [extract_number_toks_cons ord short t rest (h t (List.mem_cons_self t _))]
    exact ih (fun u hu => h u (List.mem_cons_of_mem t hu))

/-- Non-indicator tokens in front of the sequence do not change the
extraction result. -/
lemma extract_number_toks_append (ord : Option Bool) (short : Bool)
    (pre xs : List String)
    (h : ∀ t ∈ pre, isNumericIndicator t = false) :
    extract_number_toks ord short (pre ++ xs) =
      extract_number_toks ord short xs := by
  induction pre with
  | nil => rfl
  | cons t rest ih =>
    rw [List.cons_append,
      extract_number_toks_cons ord short t (rest ++ xs)
        (h t (List.mem_cons_self t _))]
    exact ih (fun u hu => h u (List.mem_cons_of_mem t hu))

/-- Every word of the two ordinal tables is clean of the other lexical
categories, and its rank is a positive whole number. -/
lemma ordinal_words_clean :
    ∀ p : Frac × String, p ∈ _SHORT_ORDINAL_EN ++ _LONG_ORDINAL_EN →
      digitVal p.2 = none ∧ numWordVal p.2 = none ∧
      scaleVal true p.2 = none ∧ scaleVal false p.2 = none ∧
      _NEGATIVES_EN.contains p.2 = false ∧
      (p.2 == "and") = false ∧ (p.2 == "a") = false ∧
      (p.2 == "an") = false ∧ p.1.den = 1 ∧ 0 < p.1.num := by decide

/-- A successful ordinal lookup comes from a table entry. -/
lemma ordinalVal_mem (short : Bool) (w : String) (r : Frac)
    (h : ordinalVal short w = some r) :
    ∃ p, p ∈ (if short then _SHORT_ORDINAL_EN else _LONG_ORDINAL_EN) ∧
      p.2 = w ∧ p.1 = r := by
  unfold ordinalVal wordLookup at h
  rw [Option.map_eq_some'] at h
  obtain ⟨p, hfind, hp1⟩ := h
  refine ⟨p, List.mem_of_find?_eq_some hfind, ?_, hp1⟩
  have := List.find?_some hfind
  exact (beq_iff_eq.mp this)

/-- The scan at an ordinal word heading the sequence, with nothing
accumulated: ordinal policy per the `ordinals` flag. -/
lemma goNum_ordinal (short : Bool) (ord : Option Bool) (w : String)
    (post : List String) (r : Frac)
    (hdig : digitVal w = none) (hnum : numWordVal w = none)
    (hscale : scaleVal short w = none) (hord : ordinalVal short w = some r)
    (hand : (w == "and") = false) (ha : (w == "a") = false)
    (han : (w == "an") = false) :
    goNum short ord (w :: post) 0 0 0 =
      (match ord with
       | some true => (0 + 0 + r, 1, post)
       | some false => (1 / r, 1, post)
       | none => (0, 0, w :: post)) := by
  have hz : (0 + 0 : Frac) = 0 := rfl
  rw [goNum.eq_def]
  rcases ord with _ | b
  · simp [hdig, hnum, hscale, hord, hand, ha, han, hz]
  · cases b <;> simp [hdig, hnum, hscale, hord, hand, ha, han, hz]

/-- `(0 : Frac) + 0 + f` denotes `f` itself (entrywise). -/
lemma Frac.zero_zero_add (f : Frac) : (0 : Frac) + 0 + f = f := by
  obtain ⟨n, d⟩ := f
  show Frac.add (Frac.add ⟨0, 1⟩ ⟨0, 1⟩) ⟨n, d⟩ = ⟨n, d⟩
  simp [Frac.add]

/-- Reciprocal of a positive whole-valued `Frac`, in `ℚ`. -/
lemma Frac.one_div_toRat (r : Frac) (hden : r.den = 1) (hpos : 0 < r.num) :
    ((1 : Frac) / r).toRat = 1 / r.toRat := by
  obtain ⟨n, d⟩ := r
  simp only at hden hpos
  subst hden
  show (Frac.div ⟨1, 1⟩ ⟨n, 1⟩).toRat = 1 / Frac.toRat ⟨n, 1⟩
  rw [Frac.div]
  rw [if_pos (le_of_lt hpos)]
  simp only [Frac.toRat]
  have hn : ((n.toNat : Nat) : ℚ) = ((n : ℤ) : ℚ) := by
    rw [show ((n.toNat : Nat) : ℚ) = (((n.toNat : Nat) : ℤ) : ℚ) from by
      push_cast; ring]
    rw [Int.toNat_of_nonneg (le_of_lt hpos)]
  push_cast
  rw [hn]
  norm_num

/-- A non-indicator token cannot start a duration phrase. -/
lemma durParse_not_indicator (fuel : Nat) (t : String) (rest : List String)
    (h : isNumericIndicator t = false) :
    durParse fuel (t :: rest) = none := by
  cases fuel with
  | zero => rfl
  | succ fuel =>
    rw [durParse.eq_def]
    simp [parseNum_not_indicator true none t rest h]

/-- A non-indicator token does not produce a digit hour. -/
lemma digitHour_not_indicator (t : String)
    (h : isNumericIndicator t = false) : digitHour t = none := by
  obtain ⟨hdig, _⟩ := indicator_parts t h
  rw [digitHour, hdig]

/-- The date/time scan over trigger-free tokens accumulates nothing and
keeps every token in the leftover. -/
lemma scanDT_no_trigger :
    ∀ (fuel : Nat) (toks : List String),
      (∀ t ∈ toks, isDateTimeIndicator t = false) →
      scanDT fuel toks = ⟨⟨0, 0, 0⟩, none, false, toks⟩ := by
  intro fuel
  induction fuel with
  | zero => intro toks _; rfl
  | succ fuel ih =>
    intro toks h
    cases toks with
    | nil => rfl
    | cons t rest =>
      have ht := h t (List.mem_cons_self t _)
      have hnum : isNumericIndicator t = false := by
        simp only [isDateTimeIndicator, Bool.or_eq_false_iff] at ht
        exact ht.1.1.1.1
      have hin : (t == "in") = false := by
        simp only [isDateTimeIndicator, Bool.or_eq_false_iff] at ht
        exact ht.1.2
      have hrest := fun u hu => h u (List.mem_cons_of_mem t hu)
      rw [scanDT.eq_def]
      simp only [hin, Bool.false_eq_true, if_false,
        durParse_not_indicator (fuel + 1) t rest hnum,
        digitHour_not_indicator t hnum, Option.isSome_none,
        Bool.false_and]
      rw [ih rest hrest]

/-! ## Theorems for claims C1 — C7 -/

/-- C1: for an input whose only numeric token is a single ambiguous
ordinal word, `extract_number` returns the word's ordinal rank under
`ordinals=True`, the reciprocal fraction `1/rank` under `ordinals=False`,
and the `False` sentinel under `ordinals=None`; the rank is read from the
short-scale ordinal table when `short_scale=True` and from the long-scale
table otherwise. -/
theorem extract_number_lone_ordinal (pre post : List String) (w : String)
    (r : Frac) (short : Bool)
    (hpre : ∀ t ∈ pre, isNumericIndicator t = false)
    (hpost : ∀ t ∈ post, isNumericIndicator t = false)
    (hw : ordinalVal short w = some r) :
    extract_number_toks (some true) short (pre ++ w :: post) = some r ∧
    (extract_number_toks (some false) short (pre ++ w :: post)).map
      Frac.toRat = some (1 / Frac.toRat r) ∧
    extract_number_toks none short (pre ++ w :: post) = none := by
  obtain ⟨p, hmem, hpw, hpr⟩ := ordinalVal_mem short w r hw
  have hmem2 : p ∈ _SHORT_ORDINAL_EN ++ _LONG_ORDINAL_EN := by
    rw [List.mem_append]
    cases short
    · right; simpa using hmem
    · left; simpa using hmem
  obtain ⟨hdig, hnum, hsc1, hsc0, hneg, hand, ha, han, hden, hposn⟩ :=
    ordinal_words_clean p hmem2
  subst hpw
  subst hpr
  have hsc : scaleVal short p.2 = none := by cases short <;> assumption
  have hparse : ∀ ord, parseNum short ord (p.2 :: post) =
      (match ord with
       | some true => (0 + 0 + p.1, 1, post)
       | some false => (1 / p.1, 1, post)
       | none => (0, 0, p.2 :: post)) := by
    intro ord
    simp only [parseNum, hneg, Bool.false_eq_true, if_false]
    exact goNum_ordinal short ord p.2 post p.1 hdig hnum hsc hw hand ha han
  refine ⟨?_, ?_, ?_⟩
  · rw [extract_number_toks_append _ short pre _ hpre]
    simp only [extract_number_toks, hparse (some true)]
    simp [Frac.zero_zero_add]
  · rw [extract_number_toks_append _ short pre _ hpre]
    simp only [extract_number_toks, hparse (some false)]
    norm_num
    rw [← one_div]
    exact Frac.one_div_toRat p.1 hden hposn
  · rw [extract_number_toks_append _ short pre _ hpre]
    simp only [extract_number_toks, hparse none]
    norm_num
    exact extract_number_toks_no_indicator none short post hpost

/-- Witness for C1 at the claim's example: `"this is the third test"`
(rank 3, reciprocal 1/3, sentinel under `ordinals=None`). -/
theorem extract_number_lone_ordinal_witness :
    ordinalVal true "third" = some ⟨3, 1⟩ ∧
    extract_number_toks (some true) true
      ["this", "is", "the", "third", "test"] = some ⟨3, 1⟩ ∧
    (extract_number_toks (some false) true
      ["this", "is", "the", "third", "test"]).map Frac.toRat =
      some (1 / Frac.toRat ⟨3, 1⟩) ∧
    extract_number_toks none true
      ["this", "is", "the", "third", "test"] = none := by
  have h := extract_number_lone_ordinal ["this", "is", "the"] ["test"]
    "third" ⟨3, 1⟩ true (by decide) (by decide) (by decide)
  exact ⟨by decide, h.1, h.2.1, h.2.2⟩

/-- C2: the scale-accumulator fold of multi-word number phrases — scale
words close the current group into the running total, giving 20000 for
`"twenty thousand"`, 2500000 for `"two million five hundred thousand tons
of spinning metal"`, and 20300950675.8 for the non-monotonic chain with a
trailing spoken decimal. -/
theorem extract_number_scale_accumulator :
    extract_number none true "twenty thousand" = some 20000 ∧
    extract_number none true
      "two million five hundred thousand tons of spinning metal" =
      some 2500000 ∧
    extract_number none true
      ("twenty billion three hundred million nine hundred fifty thousand " ++
       "six hundred seventy five point eight") = some 20300950675.8 := by
  refine ⟨?_, ?_, ?_⟩
  · have h : extract_number_toks none true (tokenize "twenty thousand") =
        some ⟨20000, 1⟩ := by decide
    rw [extract_number, h]
    norm_num [Frac.toRat]
  · have h : extract_number_toks none true (tokenize
        "two million five hundred thousand tons of spinning metal") =
        some ⟨2500000, 1⟩ := by decide
    rw [extract_number, h]
    norm_num [Frac.toRat]
  · have h : extract_number_toks none true (tokenize
        ("twenty billion three hundred million nine hundred fifty thousand " ++
         "six hundred seventy five point eight")) =
        some ⟨203009506758, 10⟩ := by decide
    rw [extract_number, h]
    norm_num [Frac.toRat]

/-- C7: a text with no numeric indicator resolves to the `False` sentinel
(`none`) and a first resolved number of zero yields the value 0, which is
distinct from the sentinel. -/
theorem extract_number_absence_sentinel :
    (∀ (ordinals : Option Bool) (shortScale : Bool) (toks : List String),
      (∀ t ∈ toks, isNumericIndicator t = false) →
      extract_number_toks ordinals shortScale toks = none) ∧
    extract_number none true "fraggle zero" = some 0 ∧
    extract_number none true "grobo 0" = some 0 ∧
    some (0 : ℚ) ≠ (none : Option ℚ) := by
  refine ⟨extract_number_toks_no_indicator, ?_, ?_, by simp⟩
  · have h : extract_number_toks none true (tokenize "fraggle zero") =
        some ⟨0, 1⟩ := by decide
    rw [extract_number, h]
    norm_num [Frac.toRat]
  · have h : extract_number_toks none true (tokenize "grobo 0") =
        some ⟨0, 1⟩ := by decide
    rw [extract_number, h]
    norm_num [Frac.toRat]

/-- Witness for C7's universal part at the claim's example
`"The tennis player is fast"` (lower-cased tokens). -/
theorem extract_number_absence_sentinel_witness :
    extract_number_toks none true ["the", "tennis", "player", "is", "fast"]
      = none :=
  extract_number_absence_sentinel.1 none true
    ["the", "tennis", "player", "is", "fast"] (by decide)

/-- C3: `extract_datetime` yields `None` when no day-level (or time-level)
token matches — any token sequence free of date/time triggers, a
whitespace-only input, and each bare duration-unit noun without a number
(`day`, `week`, `month`, `year`) all resolve to `none`, never to the
anchor date. -/
theorem extract_datetime_none_no_day_token (anchor : LocalDateTime) :
    (∀ toks : List String, (∀ t ∈ toks, isDateTimeIndicator t = false) →
      extract_datetime_toks anchor toks = none) ∧
    extract_datetime anchor "feed the fish" = none ∧
    extract_datetime anchor " " = none ∧
    extract_datetime anchor "day" = none ∧
    extract_datetime anchor "week" = none ∧
    extract_datetime anchor "month" = none ∧
    extract_datetime anchor "year" = none := by
  refine ⟨?_, rfl, rfl, rfl, rfl, rfl, rfl⟩
  intro toks h
  rw [extract_datetime_toks, scanDT_no_trigger toks.length toks h]
  rfl

/-- Witness for C3's universal part at the claim's example
`"feed the fish"` with the test anchor. -/
theorem extract_datetime_none_no_day_token_witness :
    extract_datetime_toks ⟨2017, 6, 27, 13, 4, 0⟩ ["feed", "the", "fish"] =
      none :=
  (extract_datetime_none_no_day_token ⟨2017, 6, 27, 13, 4, 0⟩).1
    ["feed", "the", "fish"] (by decide)

/-- C4: with anchor 2017-06-27 13:04:00, `"in a couple weeks"` resolves
to 2017-07-11 00:00:00 with empty leftover, and `"remind me to call mom
in 8 weeks and 2 days"` resolves to 2017-08-24 00:00:00 with leftover
`"remind me to call mom"` — duration offsets apply additively to the
anchor and consumed spans disappear from the leftover. -/
theorem extract_datetime_duration_offsets :
    extract_datetime ⟨2017, 6, 27, 13, 4, 0⟩ "in a couple weeks" =
      some (⟨2017, 7, 11, 0, 0, 0⟩, "") ∧
    extract_datetime ⟨2017, 6, 27, 13, 4, 0⟩
      "remind me to call mom in 8 weeks and 2 days" =
      some (⟨2017, 8, 24, 0, 0, 0⟩, "remind me to call mom") := by
  constructor
  · decide
  · set_option maxRecDepth 8000 in decide

/-- C5: `extract_duration` sums every number–unit pair, preserves
fractional values exactly, and removes exactly the consumed spans: 8.5
days plus 39 seconds with empty leftover, and three non-adjacent duration
phrases aggregated with connector words left as residue. -/
theorem extract_duration_aggregates :
    extract_duration "eight and a half days thirty nine seconds" =
      (timedelta 0 8.5 0 0 39, "") ∧
    extract_duration ("wake me up in three weeks, four hundred ninety " ++
      "seven days, and three hundred 91.6 seconds") =
      (timedelta 3 497 0 0 391.6, "wake me up in , , and") := by
  constructor
  · have h : scanDur
        (tokenize "eight and a half days thirty nine seconds").length
        (tokenize "eight and a half days thirty nine seconds") =
        (⟨1468878, 2⟩, []) := by decide
    rw [extract_duration]
    norm_num [h, Frac.toRat, joinToks, timedelta]
  · have h : scanDur
        (tokenize ("wake me up in three weeks, four hundred ninety " ++
          "seven days, and three hundred 91.6 seconds")).length
        (tokenize ("wake me up in three weeks, four hundred ninety " ++
          "seven days, and three hundred 91.6 seconds")) =
        (⟨447555916, 10⟩,
         ["wake", "me", "up", "in", ",", ",", "and"]) := by decide
    rw [extract_duration]
    norm_num [h, Frac.toRat, joinToks, timedelta]
    decide

/-- C6: a bare `10 o'clock` is resolved against the anchor's own period
of day: a morning anchor gives 10:00 on the anchor's date, an
afternoon/evening anchor gives 22:00 — the meridiem is a function of the
anchor's time of day, not a fixed default. -/
theorem extract_datetime_oclock_meridiem (anchor : LocalDateTime) :
    (anchor.hour < 12 →
      (extract_datetime anchor "feed fish at 10 o\x27clock").map Prod.fst =
        some ⟨anchor.year, anchor.month, anchor.day, 10, 0, 0⟩) ∧
    (12 ≤ anchor.hour →
      (extract_datetime anchor "feed fish at 10 o\x27clock").map Prod.fst =
        some ⟨anchor.year, anchor.month, anchor.day, 22, 0, 0⟩) := by
  have hscan : scanDT (tokenize "feed fish at 10 o\x27clock").length
      (tokenize "feed fish at 10 o\x27clock") =
      ⟨⟨0, 0, 0⟩, some 10, false, ["feed", "fish", "at"]⟩ := by decide
  refine ⟨fun h => ?_, fun h => ?_⟩
  · simp only [extract_datetime, extract_datetime_toks, hscan, assembleDT]
    simp [h]
  · simp only [extract_datetime, extract_datetime_toks, hscan, assembleDT]
    simp [show ¬(anchor.hour < 12) from by omega]

/-- Witness for C6 at the claim's example anchors 2017-06-27 08:01:02
(morning) and 2017-06-27 20:01:02 (evening). -/
theorem extract_datetime_oclock_meridiem_witness :
    (extract_datetime ⟨2017, 6, 27, 8, 1, 2⟩
      "feed fish at 10 o\x27clock").map Prod.fst =
      some ⟨2017, 6, 27, 10, 0, 0⟩ ∧
    (extract_datetime ⟨2017, 6, 27, 20, 1, 2⟩
      "feed fish at 10 o\x27clock").map Prod.fst =
      some ⟨2017, 6, 27, 22, 0, 0⟩ :=
  ⟨(extract_datetime_oclock_meridiem ⟨2017, 6, 27, 8, 1, 2⟩).1
      (by norm_num),
   (extract_datetime_oclock_meridiem ⟨2017, 6, 27, 20, 1, 2⟩).2
      (by norm_num)⟩

end LinguaNostra
